import Mathlib

/-!
Verification development for the auto-insurance weekly-data pipeline
(ETL normalisation, metric derivation, aggregation, drilldown indexing,
dashboard generation, and the merge/clean script).

The Python sources are embedded shallowly:
* money and ratio values are rationals (`ℚ`); pandas `Series` become lists;
* `DataFrame.groupby` becomes first-occurrence key extraction (`unique`)
  plus `List.filter`;
* numpy `.round()` is round-half-to-even (`roundHalfEven`), `.round(2)` is
  `round2`;
* a pandas float division whose denominator is zero produces a non-finite
  value (NaN or ±inf); where the source leaves such a division unguarded the
  embedding returns `Option ℚ` with `none` marking the non-finite result.
-/

/-- Round-half-to-even on rationals, the rounding used by numpy / pandas
`.round()` (banker's rounding). -/
def roundHalfEven (q : ℚ) : ℤ :=
  if q - ⌊q⌋ < 1/2 then ⌊q⌋
  else if 1/2 < q - ⌊q⌋ then ⌊q⌋ + 1
  else if ⌊q⌋ % 2 = 0 then ⌊q⌋ else ⌊q⌋ + 1

/-- pandas `.round(2)`: round the value to two decimal digits
(half-to-even). -/
def round2 (q : ℚ) : ℚ := (roundHalfEven (q * 100) : ℚ) / 100

/-- `roundHalfEven` is a nearest-integer rounding: the result differs from
the argument by at most one half. -/
theorem roundHalfEven_nearest (q : ℚ) : |(roundHalfEven q : ℚ) - q| ≤ 1/2 := by
  have h0 : ((⌊q⌋ : ℤ) : ℚ) ≤ q := Int.floor_le q
  have h1 : q < ⌊q⌋ + 1 := Int.lt_floor_add_one q
  unfold roundHalfEven
  split
  · next h => rw [abs_le]; constructor <;> linarith
  · next h =>
    split
    · next h2 => rw [abs_le]; push_cast; constructor <;> linarith
    · next h2 =>
      have he : q - ⌊q⌋ = 1/2 := le_antisymm (not_lt.mp h2) (not_lt.mp h)
      split
      · rw [abs_le]; constructor <;> linarith
      · rw [abs_le]; push_cast; constructor <;> linarith

/-- Python `int(...)` / numpy `.astype(int)` conversion of a rational:
truncation toward zero. -/
def intTrunc (q : ℚ) : ℤ := q.num / q.den

/-- First-occurrence deduplication, the order semantics of pandas
`Series.unique()` / sorted=False group keys.  Auxiliary: `seen` collects the
keys already emitted. -/
def uniqAux {α : Type} [DecidableEq α] (seen : List α) : List α → List α
  | [] => []
  | a :: l => if a ∈ seen then uniqAux seen l else a :: uniqAux (a :: seen) l

/-- First-occurrence deduplication of a list (pandas `unique`). -/
def unique {α : Type} [DecidableEq α] (l : List α) : List α := uniqAux [] l

theorem uniqAux_nodup_and_fresh {α : Type} [DecidableEq α] :
    ∀ (l seen : List α), (uniqAux seen l).Nodup ∧ ∀ x ∈ uniqAux seen l, x ∉ seen := by
  intro l
  induction l with
  | nil => intro seen; simp [uniqAux]
  | cons a l ih =>
    intro seen
    by_cases h : a ∈ seen
    · simpa [uniqAux, h] using ih seen
    · have ihs := ih (a :: seen)
      refine ⟨?_, ?_⟩
      · simp only [uniqAux, h, if_false, List.nodup_cons]
        exact ⟨fun hmem => (ihs.2 a hmem) (List.mem_cons_self a seen), ihs.1⟩
      · intro x hx
        simp only [uniqAux, h, if_false, List.mem_cons] at hx
        rcases hx with rfl | hx
        · exact h
        · intro hxs
          exact (ihs.2 x hx) (List.mem_cons_of_mem a hxs)

theorem mem_uniqAux {α : Type} [DecidableEq α] :
    ∀ (l seen : List α) (x : α), x ∈ l → x ∉ seen → x ∈ uniqAux seen l := by
  intro l
  induction l with
  | nil => intro seen x hx; simp at hx
  | cons a l ih =>
    intro seen x hx hs
    rcases List.mem_cons.mp hx with rfl | hx
    · by_cases h : x ∈ seen
      · exact absurd h hs
      · simp [uniqAux, h]
    · by_cases h : a ∈ seen
      · simpa [uniqAux, h] using ih seen x hx hs
      · simp only [uniqAux, h, if_false, List.mem_cons]
        by_cases hxa : x = a
        · exact Or.inl hxa
        · exact Or.inr (ih (a :: seen) x hx (by simp [hxa, hs]))

theorem unique_nodup {α : Type} [DecidableEq α] (l : List α) : (unique l).Nodup :=
  (uniqAux_nodup_and_fresh l []).1

theorem mem_unique {α : Type} [DecidableEq α] {l : List α} {x : α} (hx : x ∈ l) :
    x ∈ unique l :=
  mem_uniqAux l [] x hx (by simp)

/-- Splitting a mapped sum along a Boolean predicate. -/
theorem sum_map_filter_add {α : Type} (p : α → Bool) (f : α → ℚ) (l : List α) :
    ((l.filter p).map f).sum + ((l.filter (fun a => !(p a))).map f).sum
      = (l.map f).sum := by
  induction l with
  | nil => simp
  | cons a l ih =>
    by_cases h : p a = true
    · simp only [List.filter_cons, h, Bool.not_true, Bool.false_eq_true, if_true, if_false,
        List.map_cons, List.sum_cons]
      rw [← ih]; ring
    · have h2 : p a = false := by simpa using h
      simp only [List.filter_cons, h2, Bool.not_false, Bool.false_eq_true, if_true, if_false,
        List.map_cons, List.sum_cons]
      rw [← ih]; ring

/-- Partition lemma: if `ks` lists each key of `rows` exactly once, then the
per-key group sums add up to the ungrouped sum. -/
theorem sum_over_parts {α β : Type} [DecidableEq β] (key : α → β) (f : α → ℚ) :
    ∀ (ks : List β) (rows : List α), ks.Nodup → (∀ r ∈ rows, key r ∈ ks) →
      (ks.map (fun k => ((rows.filter (fun r => decide (key r = k))).map f).sum)).sum
        = (rows.map f).sum := by
  intro ks
  induction ks with
  | nil =>
    intro rows _ hcov
    have : rows = [] := by
      cases rows with
      | nil => rfl
      | cons r rs => exact absurd (hcov r (List.mem_cons_self r rs)) (by simp)
    simp [this]
  | cons k ks ih =>
    intro rows hnd hcov
    have hk : k ∉ ks := (List.nodup_cons.mp hnd).1
    have hnd' : ks.Nodup := (List.nodup_cons.mp hnd).2
    set rows' := rows.filter (fun r => !(decide (key r = k))) with hrows'
    have hsub : ∀ k2 ∈ ks,
        rows.filter (fun r => decide (key r = k2))
          = rows'.filter (fun r => decide (key r = k2)) := by
      intro k2 hk2
      rw [hrows', List.filter_filter]
      apply List.filter_congr
      intro r _
      by_cases hr : key r = k2
      · have hk2k : ¬ k2 = k := fun hc => hk (hc ▸ hk2)
        simp [hr, hk2k]
      · simp [hr]
    have hcov' : ∀ r ∈ rows', key r ∈ ks := by
      intro r hr
      rw [hrows'] at hr
      have hr2 := List.mem_filter.mp hr
      have : key r ≠ k := by simpa using hr2.2
      rcases hcov r hr2.1 with hmem
      rcases List.mem_cons.mp hmem with hck | hmem2
      · exact absurd hck this
      · exact hmem2
    have ihr := ih rows' hnd' hcov'
    have hmapeq :
        (ks.map (fun k2 => ((rows.filter (fun r => decide (key r = k2))).map f).sum))
          = (ks.map (fun k2 => ((rows'.filter (fun r => decide (key r = k2))).map f).sum)) := by
      apply List.map_congr_left
      intro k2 hk2
      rw [hsub k2 hk2]
    calc (((k :: ks).map
            (fun k2 => ((rows.filter (fun r => decide (key r = k2))).map f).sum)).sum)
        = ((rows.filter (fun r => decide (key r = k))).map f).sum
            + (ks.map (fun k2 => ((rows.filter (fun r => decide (key r = k2))).map f).sum)).sum := by
          simp
      _ = ((rows.filter (fun r => decide (key r = k))).map f).sum + (rows'.map f).sum := by
          rw [hmapeq, ihr]
      _ = (rows.map f).sum := by
          rw [hrows']; exact sum_map_filter_add (fun r => decide (key r = k)) f rows

/-- Grouped sums over the first-occurrence key list reproduce the ungrouped
sum (pandas `groupby(key).agg(sum)` conservation). -/
theorem sum_over_unique {α β : Type} [DecidableEq β] (key : α → β) (f : α → ℚ)
    (rows : List α) :
    ((unique (rows.map key)).map
        (fun k => ((rows.filter (fun r => decide (key r = k))).map f).sum)).sum
      = (rows.map f).sum := by
  apply sum_over_parts
  · exact unique_nodup _
  · intro r hr
    exact mem_unique (List.mem_map_of_mem key hr)

/-- One record of the canonical 27-field table, restricted to the fields the
claims reason about (`scripts/etl_to_duckdb.py` output schema; string/bool
dimension fields, rational money fields in base units (yuan), integer
counts). -/
structure InsuranceRecord where
  policy_start_year : ℤ
  week_number : ℤ
  third_level_organization : String
  business_type_category : String
  coverage_type : String
  is_transferred_vehicle : Bool
  signed_premium_yuan : ℚ
  matured_premium_yuan : ℚ
  policy_count : ℤ
  claim_case_count : ℤ
  reported_claim_payment_yuan : ℚ
  expense_amount_yuan : ℚ
  marginal_contribution_amount_yuan : ℚ
deriving DecidableEq

namespace ETL

/-- One row after alias renaming, carrying the ratio-first legacy fields
consumed by `DataProcessor.calculate_absolute_fields`
(`scripts/etl_to_duckdb.py:200-225`).  Upstream `pd.to_numeric(...,
errors='coerce').fillna(0)` has already happened: every field is a plain
rational. -/
structure StdRow where
  signed_premium_wan : ℚ
  matured_premium_wan : ℚ
  average_premium : ℚ
  claim_case_count : ℚ
  total_claim_wan : ℚ
  expense_ratio : ℚ
  variable_cost_ratio : ℚ
  commercial_autonomous_coefficient : ℚ

/-- The nine absolute fields produced by
`DataProcessor.calculate_absolute_fields`. -/
structure AbsRow where
  signed_premium_yuan : ℚ
  matured_premium_yuan : ℚ
  commercial_premium_before_discount_yuan : ℚ
  policy_count : ℤ
  claim_case_count : ℤ
  reported_claim_payment_yuan : ℚ
  expense_amount_yuan : ℚ
  premium_plan_yuan : ℚ
  marginal_contribution_amount_yuan : ℚ

/-- `DataProcessor.calculate_absolute_fields` (`scripts/etl_to_duckdb.py:200-225`):
back-computes the nine absolute fields from a ratio-first legacy row.
`avg_premium` and `coeff` have their zeros replaced by `1.0` (pandas
`.replace(0, 1.0)`); `policy_count` is `.round().astype(int)`
(half-to-even); the three `*_wan` anchors are scaled by 10000 to yuan;
`premium_plan_yuan` is set to `matured_premium_yuan` (source comment:
"默认等于满期保费"). -/
def calculate_absolute_fields (r : StdRow) : AbsRow :=
  let avgPremium := if r.average_premium = 0 then 1 else r.average_premium
  let coeff := if r.commercial_autonomous_coefficient = 0 then 1
               else r.commercial_autonomous_coefficient
  let signedYuan := r.signed_premium_wan * 10000
  let maturedYuan := r.matured_premium_wan * 10000
  { signed_premium_yuan := signedYuan
    matured_premium_yuan := maturedYuan
    commercial_premium_before_discount_yuan := maturedYuan / coeff
    policy_count := roundHalfEven (maturedYuan / avgPremium)
    claim_case_count := intTrunc r.claim_case_count
    reported_claim_payment_yuan := r.total_claim_wan * 10000
    expense_amount_yuan := signedYuan * r.expense_ratio
    premium_plan_yuan := maturedYuan
    marginal_contribution_amount_yuan := maturedYuan * (1 - r.variable_cost_ratio) }

/-- Row-level derivation of `expense_ratio` in
`DataProcessor.standardize_fields` (`scripts/etl_to_duckdb.py:100-106`):
`ea / sp.replace(0, 1)` followed by `df.loc[sp == 0, 'expense_ratio'] = 0`,
i.e. 0 when the signed premium is 0, `ea / sp` otherwise. -/
def expense_ratio_derived (ea sp : ℚ) : ℚ :=
  if sp = 0 then 0 else ea / sp

/-- Row-level derivation of `variable_cost_ratio`
(`scripts/etl_to_duckdb.py:108-113`): `1 - mc / mp.replace(0, 1)` then
forced to 0 where `mp == 0`. -/
def variable_cost_ratio_derived (mc mp : ℚ) : ℚ :=
  if mp = 0 then 0 else 1 - mc / mp

/-- Row-level derivation of `average_premium`
(`scripts/etl_to_duckdb.py:115-120`): `mp / pc.replace(0, 1)` then forced
to 0 where `pc == 0`. -/
def average_premium_derived (mp pc : ℚ) : ℚ :=
  if pc = 0 then 0 else mp / pc

/-- Row-level derivation of `commercial_autonomous_coefficient`
(`scripts/etl_to_duckdb.py:122-127`): `mp / cp.replace(0, 1)` then forced
to `1.0` — not 0 — where `cp == 0`. -/
def commercial_autonomous_coefficient_derived (mp cp : ℚ) : ℚ :=
  if cp = 0 then 1 else mp / cp

/-- The alias table `DataProcessor.field_alias_mapping`
(`scripts/etl_to_duckdb.py:50-80`), in source (insertion) order. -/
def field_alias_mapping : List (String × List String) :=
  [("snapshot_date", ["snapshot_date", "刷新时间", "Snapshot Date"]),
   ("policy_start_year", ["policy_start_year", "保险起期", "Policy Start Year"]),
   ("business_type_category", ["business_type_category", "业务类型分类", "Business Type Category"]),
   ("chengdu_branch", ["chengdu_branch", "成都中支", "Chengdu Branch"]),
   ("second_level_organization", ["second_level_organization", "二级机构", "Second Level Organization"]),
   ("third_level_organization", ["third_level_organization", "三级机构", "Third Level Organization"]),
   ("customer_category_3", ["customer_category_3", "客户类别3", "Customer Category 3"]),
   ("insurance_type", ["insurance_type", "险种类", "Insurance Type"]),
   ("is_new_energy_vehicle", ["is_new_energy_vehicle", "是否新能源车1", "Is New Energy Vehicle"]),
   ("coverage_type", ["coverage_type", "交三/主全", "Coverage Type"]),
   ("is_transferred_vehicle", ["is_transferred_vehicle", "是否过户车", "Is Transferred Vehicle"]),
   ("renewal_status", ["renewal_status", "续保情况", "Renewal Status"]),
   ("vehicle_insurance_grade", ["vehicle_insurance_grade", "车险分等级", "Vehicle Insurance Grade"]),
   ("highway_risk_grade", ["highway_risk_grade", "高速风险等级", "Highway Risk Grade"]),
   ("large_truck_score", ["large_truck_score", "大货车评分", "Large Truck Score"]),
   ("small_truck_score", ["small_truck_score", "小货车评分", "Small Truck Score"]),
   ("terminal_source", ["terminal_source", "终端来源", "Terminal Source"]),
   ("signed_premium_wan", ["signed_premium_wan", "跟单保费(万)", "跟单保费(Ten Thousand)"]),
   ("average_premium", ["average_premium", "单均保费", "Average Premium"]),
   ("matured_premium_wan", ["matured_premium_wan", "满期净保费(万)", "满期净保费(Ten Thousand)"]),
   ("claim_frequency", ["claim_frequency", "出险频度", "Claim Frequency"]),
   ("claim_case_count", ["claim_case_count", "案件数", "Claim Case Count"]),
   ("average_claim_amount", ["average_claim_amount", "案均赔款", "Average Claim Amount"]),
   ("total_claim_wan", ["total_claim_wan", "总赔款(万)", "总赔款(Ten Thousand)"]),
   ("matured_claim_ratio", ["matured_claim_ratio", "满期赔付率", "Matured Claim Ratio"]),
   ("expense_ratio", ["expense_ratio", "费用率", "Expense Ratio"]),
   ("variable_cost_ratio", ["variable_cost_ratio", "变动成本率", "Variable Cost Ratio"]),
   ("commercial_autonomous_coefficient", ["commercial_autonomous_coefficient", "商业险自主系数", "Commercial Autonomous Coefficient"]),
   ("week_number", ["week_number", "周次", "Week Number"])]

/-- The mandatory canonical fields `required_for_calc`
(`scripts/etl_to_duckdb.py:140-144`). -/
def required_for_calc : List String :=
  ["signed_premium_wan", "matured_premium_wan", "average_premium",
   "claim_case_count", "total_claim_wan", "expense_ratio",
   "variable_cost_ratio", "commercial_autonomous_coefficient"]

/-- First alias of the list present among the input columns (the inner
`for alias in aliases: if alias in input_columns: ... break` loop). -/
def findAlias (aliases cols : List String) : Option String :=
  aliases.find? (fun a => cols.contains a)

/-- Alias list registered for a canonical field. -/
def aliasesOf (field : String) : List String :=
  ((field_alias_mapping.find? (fun p => p.1 == field)).map (fun p => p.2)).getD []

/-- The `rename_map` built by `standardize_fields`
(`scripts/etl_to_duckdb.py:129-138`): for each canonical field, the first
matching alias among the input columns, as (alias, canonical) pairs. -/
def rename_map (cols : List String) : List (String × String) :=
  field_alias_mapping.filterMap
    (fun p => (findAlias p.2 cols).map (fun a => (a, p.1)))

/-- `found_internal_fields`: canonical fields for which some alias matched. -/
def found_internal_fields (cols : List String) : List String :=
  field_alias_mapping.filterMap
    (fun p => if (findAlias p.2 cols).isSome then some p.1 else none)

/-- `missing_fields` (`scripts/etl_to_duckdb.py:146`): the mandatory
canonical fields having no matching alias among the input columns. -/
def missing_fields (cols : List String) : List String :=
  required_for_calc.filter (fun f => !((found_internal_fields cols).contains f))

/-- The alias-resolution step of `DataProcessor.standardize_fields`
(`scripts/etl_to_duckdb.py:129-151`): if any mandatory field is missing the
whole batch fails with a `ValueError` listing every missing field together
with its full alias list; otherwise the rename map is produced. -/
def standardize_fields_resolve (cols : List String) :
    Except (List (String × List String)) (List (String × String)) :=
  if missing_fields cols = [] then .ok (rename_map cols)
  else .error ((missing_fields cols).map (fun f => (f, aliasesOf f)))

/-- `ETLConverter.clean_data` (`scripts/etl_to_duckdb.py:324-333`):
`DELETE FROM t WHERE policy_start_year = 0 OR signed_premium_yuan = 0 OR
week_number = 0`.  The surviving table is the filtered list; the deleted
rows are not returned anywhere (only a count is printed). -/
def clean_data (records : List InsuranceRecord) : List InsuranceRecord :=
  records.filter (fun r =>
    !(decide (r.policy_start_year = 0) || decide (r.signed_premium_yuan = 0)
      || decide (r.week_number = 0)))

end ETL

namespace Merge

/-- A text cell after `_normalize_text`, classified by Python numeric
parsing (`float(raw.replace(",", ""))` in `_parse_number`): `blank` for the
empty string, `num q` for text parsing as the number `q` (thousands commas
already removed), `text s` for unparseable text. -/
inductive Cell where
  | blank : Cell
  | num : ℚ → Cell
  | text : String → Cell
deriving DecidableEq

/-- A `snapshot_date` cell, classified by `_normalize_date_yyyy_mm_dd`
(`merge_actual_data_to_csv.py:133-150`): blank, a date parsed from one of
the accepted formats, or unparseable text. -/
inductive DateCell where
  | blank : DateCell
  | date : ℕ → ℕ → ℕ → DateCell
  | bad : String → DateCell
deriving DecidableEq

/-- `_normalize_date_yyyy_mm_dd`: returns the parsed (y, m, d) and the
error message, if any. -/
def normalize_date (c : DateCell) : Option (ℕ × ℕ × ℕ) × Option String :=
  match c with
  | .blank => (none, some "snapshot_date: 为空")
  | .date y m d => (some (y, m, d), none)
  | .bad s => (none, some ("snapshot_date: 无法解析日期格式 \"" ++ s ++ "\""))

/-- Lexicographic comparison of (year, month, day) triples, the order of
Python `datetime.date`. -/
def dateLeB (a b : ℕ × ℕ × ℕ) : Bool :=
  if a.1 ≠ b.1 then decide (a.1 < b.1)
  else if a.2.1 ≠ b.2.1 then decide (a.2.1 < b.2.1)
  else decide (a.2.2 ≤ b.2.2)

/-- `_parse_number` (`merge_actual_data_to_csv.py:172-191`): returns the
(kept cell value, numeric value, warning-or-error).  A blank cell is kept
blank with no message when `allowBlank`, else defaulted to `"0"` with a
message; unparseable text is kept verbatim with value 0 and an
invalid-format message. -/
def parse_number (c : Cell) (field : String) (allowBlank : Bool) :
    Cell × ℚ × Option String :=
  match c with
  | .blank =>
      if allowBlank then (.blank, 0, none)
      else (.num 0, 0, some (field ++ ": 为空，已默认 0"))
  | .num q => (.num q, q, none)
  | .text s => (.text s, 0, some (field ++ ": 无效数字格式 \"" ++ s ++ "\""))

/-- `_parse_int` (`merge_actual_data_to_csv.py:194-214`): as
`_parse_number` but additionally rejecting non-integer values (Python
`float(num).is_integer()`; the source interpolates the offending value into
the message, elided here). -/
def parse_int (c : Cell) (field : String) (allowBlank : Bool) :
    Cell × ℤ × Option String :=
  match c with
  | .blank =>
      if allowBlank then (.blank, 0, none)
      else (.num 0, 0, some (field ++ ": 为空，已默认 0"))
  | .num q =>
      if q.den = 1 then (.num q, q.num, none)
      else (.num q, intTrunc q, some (field ++ ": 必须为整数"))
  | .text s => (.text s, 0, some (field ++ ": 无效数字格式 \"" ++ s ++ "\""))

/-- `_normalize_bool` (`merge_actual_data_to_csv.py:153-169`). -/
def normalize_bool (raw : String) (field : String) : Bool × Option String :=
  if raw = "" then (false, some (field ++ ": 为空，已默认 False"))
  else if raw = "True" then (true, none)
  else if raw = "False" then (false, none)
  else if ["true", "1", "yes", "y", "是", "on", "enabled"].contains raw.toLower then
    (true, some (field ++ ": 非标准布尔值 \"" ++ raw ++ "\" 已按 True 处理"))
  else if ["false", "0", "no", "n", "否", "off", "disabled"].contains raw.toLower then
    (false, some (field ++ ": 非标准布尔值 \"" ++ raw ++ "\" 已按 False 处理"))
  else (false, some (field ++ ": 无效布尔值 \"" ++ raw ++ "\"，已默认 False"))

/-- `ENUM_MAPPINGS["insurance_type"]`. -/
def mapping_insurance_type : List (String × String) :=
  [("商业保险", "商业险"), ("商险", "商业险"), ("商业", "商业险"),
   ("交强", "交强险"), ("交强保险", "交强险"), ("强制险", "交强险")]

/-- `ENUM_MAPPINGS["renewal_status"]`. -/
def mapping_renewal_status : List (String × String) :=
  [("新", "新保"), ("新保单", "新保"), ("续", "续保"), ("续保单", "续保"),
   ("转", "转保"), ("转保单", "转保")]

/-- `_map_enum`: `mapping.get(raw, raw)` on an already-normalized value. -/
def map_enum (mapping : List (String × String)) (raw : String) : String :=
  ((mapping.find? (fun p => p.1 == raw)).map (fun p => p.2)).getD raw

/-- `VALID_ENUMS` (`merge_actual_data_to_csv.py:90-95`). -/
def valid_chengdu_branch : List String := ["成都", "中支"]

def valid_insurance_type : List String := ["商业险", "交强险"]

def valid_coverage_type : List String := ["主全", "交三", "单交"]

def valid_renewal_status : List String := ["新保", "续保", "转保"]

/-- One raw CSV row as handed to `_clean_row`: dimension/boolean cells as
already-`_normalize_text`-ed strings, numeric cells classified as `Cell`,
the snapshot date as `DateCell`. -/
structure RawRow where
  snapshot_date : DateCell
  policy_start_year : Cell
  week_number : Cell
  chengdu_branch : String
  third_level_organization : String
  customer_category_3 : String
  business_type_category : String
  insurance_type : String
  coverage_type : String
  renewal_status : String
  is_new_energy_vehicle : String
  is_transferred_vehicle : String
  terminal_source : String
  signed_premium_yuan : Cell
  matured_premium_yuan : Cell
  policy_count : Cell
  claim_case_count : Cell
  reported_claim_payment_yuan : Cell
  expense_amount_yuan : Cell
  commercial_premium_before_discount_yuan : Cell
  premium_plan_yuan : Cell
  marginal_contribution_amount_yuan : Cell
  vehicle_insurance_grade : String
  highway_risk_grade : String
  large_truck_score : String
  small_truck_score : String
  second_level_organization : String

def parsed_year (row : RawRow) : Cell × ℤ × Option String :=
  parse_int row.policy_start_year "policy_start_year" false

def parsed_week (row : RawRow) : Cell × ℤ × Option String :=
  parse_int row.week_number "week_number" false

def parsed_signed (row : RawRow) : Cell × ℚ × Option String :=
  parse_number row.signed_premium_yuan "signed_premium_yuan" false

def parsed_matured (row : RawRow) : Cell × ℚ × Option String :=
  parse_number row.matured_premium_yuan "matured_premium_yuan" false

def parsed_policy_count (row : RawRow) : Cell × ℤ × Option String :=
  parse_int row.policy_count "policy_count" false

def parsed_claim_case (row : RawRow) : Cell × ℤ × Option String :=
  parse_int row.claim_case_count "claim_case_count" false

def parsed_reported (row : RawRow) : Cell × ℚ × Option String :=
  parse_number row.reported_claim_payment_yuan "reported_claim_payment_yuan" false

def parsed_expense (row : RawRow) : Cell × ℚ × Option String :=
  parse_number row.expense_amount_yuan "expense_amount_yuan" false

def parsed_commercial (row : RawRow) : Cell × ℚ × Option String :=
  parse_number row.commercial_premium_before_discount_yuan
    "commercial_premium_before_discount_yuan" false

/-- `premium_plan_yuan` is the only numeric field parsed with
`allow_blank=True` (`merge_actual_data_to_csv.py:401-405`). -/
def parsed_plan (row : RawRow) : Cell × ℚ × Option String :=
  parse_number row.premium_plan_yuan "premium_plan_yuan" true

def parsed_marginal (row : RawRow) : Cell × ℚ × Option String :=
  parse_number row.marginal_contribution_amount_yuan
    "marginal_contribution_amount_yuan" false

def errs_snapshot (today : ℕ × ℕ × ℕ) (row : RawRow) : List String :=
  match normalize_date row.snapshot_date with
  | (_, some e) => [e]
  | (some d, none) =>
      if dateLeB (2020, 1, 1) d && dateLeB d today then []
      else ["snapshot_date: 快照日期必须在 2020-01-01 至今之间"]
  | (none, none) => []

def errs_year (row : RawRow) : List String :=
  (parsed_year row).2.2.toList ++
  (if (parsed_year row).2.1 < 2020 ∨ (parsed_year row).2.1 > 2030 then
     ["policy_start_year: 保单年度必须在 2020-2030 之间"] else [])

def errs_week (row : RawRow) : List String :=
  (parsed_week row).2.2.toList ++
  (if (parsed_week row).2.1 < 1 ∨ (parsed_week row).2.1 > 105 then
     ["week_number: 周序号必须在 1-105 之间"] else [])

def errs_branch (row : RawRow) : List String :=
  if valid_chengdu_branch.contains row.chengdu_branch then []
  else ["chengdu_branch: 地域属性必须为\"成都\"或\"中支\""]

def errs_third (row : RawRow) : List String :=
  if row.third_level_organization = "" then
    ["third_level_organization: 三级机构不能为空"] else []

def errs_customer (row : RawRow) : List String :=
  if row.customer_category_3 = "" then
    ["customer_category_3: 客户类型不能为空"] else []

def errs_business (row : RawRow) : List String :=
  if row.business_type_category = "" then
    ["business_type_category: 业务类型不能为空"] else []

def errs_insurance (row : RawRow) : List String :=
  if valid_insurance_type.contains (map_enum mapping_insurance_type row.insurance_type)
  then [] else ["insurance_type: 保险类型只能是\"商业险\"或\"交强险\""]

def errs_coverage (row : RawRow) : List String :=
  if valid_coverage_type.contains (map_enum [] row.coverage_type)
  then [] else ["coverage_type: 险别组合必须是\"主全\"、\"交三\"或\"单交\""]

def errs_renewal (row : RawRow) : List String :=
  if valid_renewal_status.contains (map_enum mapping_renewal_status row.renewal_status)
  then [] else ["renewal_status: 新续转状态必须是\"新保\"、\"续保\"或\"转保\""]

def errs_terminal (row : RawRow) : List String :=
  if row.terminal_source = "" then ["terminal_source: 终端来源不能为空"] else []

def errs_signed (row : RawRow) : List String :=
  if (parsed_signed row).2.1 < 0 ∨ (parsed_signed row).2.1 > 10000000 then
    ["signed_premium_yuan: 签单保费必须为 0-1000 万元"] else []

/-- The two checks on `matured_premium_yuan`
(`merge_actual_data_to_csv.py:338-341`): the range check, then the
consistency check `matured_premium > signed_premium` — which the source
records as a fatal error, not a warning. -/
def errs_matured (row : RawRow) : List String :=
  (if (parsed_matured row).2.1 < 0 ∨ (parsed_matured row).2.1 > 10000000 then
     ["matured_premium_yuan: 满期保费必须为 0-1000 万元"] else []) ++
  (if (parsed_matured row).2.1 > (parsed_signed row).2.1 then
     ["matured_premium_yuan: 满期保费不能超过签单保费"] else [])

def errs_policy_count (row : RawRow) : List String :=
  if (parsed_policy_count row).2.1 < 0 then
    ["policy_count: 保单件数必须为非负数"] else []

def errs_claim_case (row : RawRow) : List String :=
  if (parsed_claim_case row).2.1 < 0 then
    ["claim_case_count: 赔案件数必须为非负数"] else []

def errs_expense (row : RawRow) : List String :=
  if (parsed_expense row).2.1 < 0 then
    ["expense_amount_yuan: 费用金额必须为非负数"] else []

def errs_commercial (row : RawRow) : List String :=
  if (parsed_commercial row).2.1 < 0 then
    ["commercial_premium_before_discount_yuan: 商业险折前保费必须为非负数"] else []

/-- For `premium_plan_yuan` only an invalid-format message is fatal; a
blank value yields no message at all (`merge_actual_data_to_csv.py:401-408`). -/
def errs_plan (row : RawRow) : List String :=
  (parsed_plan row).2.2.toList

def warns_nev (row : RawRow) : List String :=
  (normalize_bool row.is_new_energy_vehicle "is_new_energy_vehicle").2.toList

def warns_transferred (row : RawRow) : List String :=
  (normalize_bool row.is_transferred_vehicle "is_transferred_vehicle").2.toList

def warns_signed (row : RawRow) : List String := (parsed_signed row).2.2.toList

def warns_matured (row : RawRow) : List String := (parsed_matured row).2.2.toList

def warns_policy_count (row : RawRow) : List String := (parsed_policy_count row).2.2.toList

def warns_claim_case (row : RawRow) : List String := (parsed_claim_case row).2.2.toList

def warns_reported (row : RawRow) : List String := (parsed_reported row).2.2.toList

def warns_expense (row : RawRow) : List String := (parsed_expense row).2.2.toList

def warns_commercial (row : RawRow) : List String := (parsed_commercial row).2.2.toList

def warns_marginal (row : RawRow) : List String := (parsed_marginal row).2.2.toList

/-- The fatal-error list accumulated by `_clean_row`, in source order. -/
def errors_of (today : ℕ × ℕ × ℕ) (row : RawRow) : List String :=
  errs_snapshot today row ++ errs_year row ++ errs_week row ++ errs_branch row ++
  errs_third row ++ errs_customer row ++ errs_business row ++ errs_insurance row ++
  errs_coverage row ++ errs_renewal row ++ errs_terminal row ++ errs_signed row ++
  errs_matured row ++ errs_policy_count row ++ errs_claim_case row ++
  errs_expense row ++ errs_commercial row ++ errs_plan row

/-- The warning list accumulated by `_clean_row`, in source order. -/
def warnings_of (row : RawRow) : List String :=
  warns_nev row ++ warns_transferred row ++ warns_signed row ++ warns_matured row ++
  warns_policy_count row ++ warns_claim_case row ++ warns_reported row ++
  warns_expense row ++ warns_commercial row ++ warns_marginal row

/-- The cleaned output row written to the merged CSV (string cells kept as
`Cell`, the snapshot date as its parsed triple). -/
structure CleanedRow where
  snapshot_date : ℕ × ℕ × ℕ
  policy_start_year : Cell
  business_type_category : String
  chengdu_branch : String
  third_level_organization : String
  customer_category_3 : String
  insurance_type : String
  is_new_energy_vehicle : Bool
  coverage_type : String
  is_transferred_vehicle : Bool
  renewal_status : String
  vehicle_insurance_grade : String
  highway_risk_grade : String
  large_truck_score : String
  small_truck_score : String
  terminal_source : String
  signed_premium_yuan : Cell
  matured_premium_yuan : Cell
  policy_count : Cell
  claim_case_count : Cell
  reported_claim_payment_yuan : Cell
  expense_amount_yuan : Cell
  commercial_premium_before_discount_yuan : Cell
  premium_plan_yuan : Cell
  marginal_contribution_amount_yuan : Cell
  week_number : Cell
  second_level_organization : Option String
deriving DecidableEq

def mkCleaned (row : RawRow) (includeSecond : Bool) : CleanedRow :=
  { snapshot_date := ((normalize_date row.snapshot_date).1).getD (0, 0, 0)
    policy_start_year := (parsed_year row).1
    business_type_category := row.business_type_category
    chengdu_branch := row.chengdu_branch
    third_level_organization := row.third_level_organization
    customer_category_3 := row.customer_category_3
    insurance_type := map_enum mapping_insurance_type row.insurance_type
    is_new_energy_vehicle := (normalize_bool row.is_new_energy_vehicle "is_new_energy_vehicle").1
    coverage_type := map_enum [] row.coverage_type
    is_transferred_vehicle := (normalize_bool row.is_transferred_vehicle "is_transferred_vehicle").1
    renewal_status := map_enum mapping_renewal_status row.renewal_status
    vehicle_insurance_grade := row.vehicle_insurance_grade
    highway_risk_grade := row.highway_risk_grade
    large_truck_score := row.large_truck_score
    small_truck_score := row.small_truck_score
    terminal_source := row.terminal_source
    signed_premium_yuan := (parsed_signed row).1
    matured_premium_yuan := (parsed_matured row).1
    policy_count := (parsed_policy_count row).1
    claim_case_count := (parsed_claim_case row).1
    reported_claim_payment_yuan := (parsed_reported row).1
    expense_amount_yuan := (parsed_expense row).1
    commercial_premium_before_discount_yuan := (parsed_commercial row).1
    premium_plan_yuan := (parsed_plan row).1
    marginal_contribution_amount_yuan := (parsed_marginal row).1
    week_number := (parsed_week row).1
    second_level_organization :=
      if includeSecond then some row.second_level_organization else none }

/-- `_clean_row` (`merge_actual_data_to_csv.py:232-462`): returns the
cleaned row (or `none` when any fatal error was recorded — the row is then
written to the invalid-rows CSV instead), together with the error and
warning lists. -/
def clean_row (today : ℕ × ℕ × ℕ) (row : RawRow) (includeSecond : Bool) :
    Option CleanedRow × List String × List String :=
  let errors := errors_of today row
  if errors.isEmpty then (some (mkCleaned row includeSecond), errors, warnings_of row)
  else (none, errors, warnings_of row)

/-- `REQUIRED_FIELDS_26` (`merge_actual_data_to_csv.py:28-55`): the header
fields every input CSV must contain — note that `premium_plan_yuan` is
among them. -/
def REQUIRED_FIELDS_26 : List String :=
  ["snapshot_date", "policy_start_year", "business_type_category", "chengdu_branch",
   "third_level_organization", "customer_category_3", "insurance_type",
   "is_new_energy_vehicle", "coverage_type", "is_transferred_vehicle",
   "renewal_status", "vehicle_insurance_grade", "highway_risk_grade",
   "large_truck_score", "small_truck_score", "terminal_source",
   "signed_premium_yuan", "matured_premium_yuan", "policy_count",
   "claim_case_count", "reported_claim_payment_yuan", "expense_amount_yuan",
   "commercial_premium_before_discount_yuan", "premium_plan_yuan",
   "marginal_contribution_amount_yuan", "week_number"]

/-- The header check in `main` (`merge_actual_data_to_csv.py:554-562`):
required fields absent from a file's header (the source sorts them for
display; order is immaterial here).  A non-empty result raises
`ValueError`, aborting the whole batch. -/
def header_missing (fieldnames : List String) : List String :=
  REQUIRED_FIELDS_26.filter (fun f => !(fieldnames.contains f))

end Merge

namespace Dashboard

/-- Column sum over records (pandas `df[col].sum()`). -/
def sumBy (f : InsuranceRecord → ℚ) (rows : List InsuranceRecord) : ℚ :=
  (rows.map f).sum

def maturedSum (rows : List InsuranceRecord) : ℚ :=
  sumBy (fun r => r.matured_premium_yuan) rows

def claimSum (rows : List InsuranceRecord) : ℚ :=
  sumBy (fun r => r.reported_claim_payment_yuan) rows

def expenseSum (rows : List InsuranceRecord) : ℚ :=
  sumBy (fun r => r.expense_amount_yuan) rows

/-- The KPI dictionary computed by `DashboardGenerator.calculate_kpis`
(`scripts/generate_dashboard.py:133-178`). -/
structure Kpis where
  signed_premium : ℚ
  matured_premium : ℚ
  policy_count : ℤ
  claim_case_count : ℤ
  reported_claim_payment : ℚ
  expense_amount : ℚ
  marginal_contribution : ℚ
  loss_ratio : ℚ
  expense_ratio : ℚ
  contribution_margin_ratio : ℚ
  maturity_ratio : ℚ
  avg_premium : ℚ
  avg_expense : ℚ
  avg_contribution : ℚ
  avg_claim : ℚ

/-- `DashboardGenerator.calculate_kpis`: sums are taken first (the wan
fields divided by 10000), then every ratio is recomputed from the summed
components, guarded by a positivity test on its denominator (zero
substituted otherwise).  Note the KPI `expense_ratio` divides by
`matured_premium` (`scripts/generate_dashboard.py:151`). -/
def calculate_kpis (rows : List InsuranceRecord) : Kpis :=
  let sp := sumBy (fun r => r.signed_premium_yuan) rows / 10000
  let mp := sumBy (fun r => r.matured_premium_yuan) rows / 10000
  let pc : ℤ := (rows.map (fun r => r.policy_count)).sum
  let cc : ℤ := (rows.map (fun r => r.claim_case_count)).sum
  let rc := sumBy (fun r => r.reported_claim_payment_yuan) rows / 10000
  let ea := sumBy (fun r => r.expense_amount_yuan) rows / 10000
  let mc := sumBy (fun r => r.marginal_contribution_amount_yuan) rows / 10000
  { signed_premium := sp
    matured_premium := mp
    policy_count := pc
    claim_case_count := cc
    reported_claim_payment := rc
    expense_amount := ea
    marginal_contribution := mc
    loss_ratio := if mp > 0 then rc / mp * 100 else 0
    expense_ratio := if mp > 0 then ea / mp * 100 else 0
    contribution_margin_ratio := if mp > 0 then mc / mp * 100 else 0
    maturity_ratio := if sp > 0 then mp / sp * 100 else 0
    avg_premium := if pc > 0 then sumBy (fun r => r.signed_premium_yuan) rows / (pc : ℚ) else 0
    avg_expense := if pc > 0 then sumBy (fun r => r.expense_amount_yuan) rows / (pc : ℚ) else 0
    avg_contribution :=
      if pc > 0 then sumBy (fun r => r.marginal_contribution_amount_yuan) rows / (pc : ℚ) else 0
    avg_claim := if cc > 0 then sumBy (fun r => r.reported_claim_payment_yuan) rows / (cc : ℚ) else 0 }

/-- Group keys of the weekly trend `groupby(['policy_start_year',
'week_number'])` (`scripts/generate_dashboard.py:402-409`). -/
def week_keys (rows : List InsuranceRecord) : List (ℤ × ℤ) :=
  unique (rows.map (fun r => (r.policy_start_year, r.week_number)))

def week_group (rows : List InsuranceRecord) (k : ℤ × ℤ) : List InsuranceRecord :=
  rows.filter (fun r => decide ((r.policy_start_year, r.week_number) = k))

/-- The weekly `loss_ratio` column
(`scripts/generate_dashboard.py:412-414`):
`(claims / matured * 100).fillna(0).round(2)`.  `fillna(0)` turns the NaN
from `0/0` into `0`, but an `x/0` with `x ≠ 0` is ±infinity, which
`fillna`/`round` pass through — modelled as `none`. -/
def weekly_loss_ratio (rows : List InsuranceRecord) (k : ℤ × ℤ) : Option ℚ :=
  let den := maturedSum (week_group rows k)
  let num := claimSum (week_group rows k)
  if den = 0 then (if num = 0 then some 0 else none)
  else some (round2 (num / den * 100))

/-- Lexicographic strict comparison of strings by code points (the order
pandas uses for sorted group keys). -/
def charListLt : List Char → List Char → Bool
  | [], [] => false
  | [], _ :: _ => true
  | _ :: _, [] => false
  | a :: as, b :: bs =>
      if a.val < b.val then true
      else if b.val < a.val then false
      else charListLt as bs

def strLtB (a b : String) : Bool := charListLt a.data b.data

def insertStr (a : String) : List String → List String
  | [] => [a]
  | b :: l => if strLtB b a then b :: insertStr a l else a :: b :: l

/-- Ascending lexicographic sort of the distinct group keys (pandas
`groupby(...)` emits its groups in sorted key order). -/
def sortStr : List String → List String
  | [] => []
  | a :: l => insertStr a (sortStr l)

def biz_rows (rows : List InsuranceRecord) (b : String) : List InsuranceRecord :=
  rows.filter (fun r => decide (r.business_type_category = b))

/-- The grouped rows of `create_business_type_chart`
(`scripts/generate_dashboard.py:214-221`): one (category,
signed_premium_wan) pair per distinct business type, in sorted key order. -/
def biz_groups (rows : List InsuranceRecord) : List (String × ℚ) :=
  (sortStr (unique (rows.map (fun r => r.business_type_category)))).map
    (fun b => (b, sumBy (fun r => r.signed_premium_yuan) (biz_rows rows b) / 10000))

/-- Stable ascending insertion by premium (`a` is placed before the first
element it does not exceed, so equal keys keep their original order). -/
def insertAscPremium (a : String × ℚ) : List (String × ℚ) → List (String × ℚ)
  | [] => [a]
  | b :: l => if a.2 ≤ b.2 then a :: b :: l else b :: insertAscPremium a l

/-- Stable ascending sort by premium.  numpy's `argsort(kind='quicksort')`
runs a plain insertion sort — which is stable — on arrays below its
16-element partition threshold, which covers the instances analysed here. -/
def stableSortPremium : List (String × ℚ) → List (String × ℚ)
  | [] => []
  | a :: l => insertAscPremium a (stableSortPremium l)

/-- `df_agg.sort_values('signed_premium_wan', ascending=False).head(10)`
(`scripts/generate_dashboard.py:226`): pandas `nargsort` performs an
ascending argsort and then reverses the index array for a descending sort,
so ties come out in reverse of their pre-sort (key-sorted) order. -/
def top10_by_signed_premium (rows : List InsuranceRecord) : List (String × ℚ) :=
  ((stableSortPremium (biz_groups rows)).reverse).take 10

/-- The `contribution_margin_ratio` column of the business-type chart
(`scripts/generate_dashboard.py:222-224`): unguarded division by the
group's matured-premium sum, then `.round(2)`; a zero denominator yields a
non-finite value (`none`). -/
def biz_contribution_margin_ratio (rows : List InsuranceRecord) (b : String) : Option ℚ :=
  let den := maturedSum (biz_rows rows b)
  if den = 0 then none
  else some (round2 (sumBy (fun r => r.marginal_contribution_amount_yuan) (biz_rows rows b)
                      / den * 100))

def drill_week_rows (rows : List InsuranceRecord) (w : ℤ) : List InsuranceRecord :=
  rows.filter (fun r => decide (r.week_number = w))

def org_keys (rows : List InsuranceRecord) : List String :=
  unique (rows.map (fun r => r.third_level_organization))

def org_rows (rows : List InsuranceRecord) (o : String) : List InsuranceRecord :=
  rows.filter (fun r => decide (r.third_level_organization = o))

def biz_keys (rows : List InsuranceRecord) : List String :=
  unique (rows.map (fun r => r.business_type_category))

def cov_keys (rows : List InsuranceRecord) : List String :=
  unique (rows.map (fun r => r.coverage_type))

def cov_rows (rows : List InsuranceRecord) (c : String) : List InsuranceRecord :=
  rows.filter (fun r => decide (r.coverage_type = c))

def renewal_keys (rows : List InsuranceRecord) : List Bool :=
  unique (rows.map (fun r => r.is_transferred_vehicle))

def renewal_rows (rows : List InsuranceRecord) (t : Bool) : List InsuranceRecord :=
  rows.filter (fun r => decide (r.is_transferred_vehicle = t))

/-- The drilldown `loss_ratio` of a level-1 (organisation) node
(`scripts/generate_dashboard.py:643-645`): `claims / matured * 100` with no
guard and no `fillna` — a zero denominator yields NaN or ±infinity
(`none`), which leaks into the emitted JSON. -/
def org_loss_ratio (rows : List InsuranceRecord) (o : String) : Option ℚ :=
  let sub := org_rows rows o
  if maturedSum sub = 0 then none
  else some (round2 (claimSum sub / maturedSum sub * 100))

end Dashboard

/-- Pointwise-equal functions give equal mapped sums. -/
theorem sum_map_congr {α : Type} (l : List α) (f g : α → ℚ) (h : ∀ a, f a = g a) :
    (l.map f).sum = (l.map g).sum := by
  rw [funext h]

/-- Characterisation of `List.find?`: the found element is the first
satisfying the predicate. -/
theorem find?_first {α : Type} (p : α → Bool) :
    ∀ (l : List α) (a : α), l.find? p = some a →
      ∃ pre post, l = pre ++ a :: post ∧ (∀ x ∈ pre, p x = false) ∧ p a = true := by
  intro l
  induction l with
  | nil => intro a h; simp [List.find?] at h
  | cons b l ih =>
    intro a h
    by_cases hb : p b = true
    · rw [List.find?_cons_of_pos _ hb] at h
      obtain rfl : b = a := by injection h
      exact ⟨[], l, by simp, by simp, hb⟩
    · have hb2 : p b = false := by simpa using hb
      rw [List.find?_cons_of_neg _ (by simp [hb2])] at h
      obtain ⟨pre, post, hl, hpre, hpa⟩ := ih a h
      refine ⟨b :: pre, post, by simp [hl], ?_, hpa⟩
      intro x hx
      rcases List.mem_cons.mp hx with rfl | hx2
      · exact hb2
      · exact hpre x hx2

/-- Example record with groups G1 (matured=100, claims=50) and G2
(matured=200, claims=150) from the spec's aggregate-ratio test, both in
(year 2024, week 1). -/
def g1 : InsuranceRecord :=
  { policy_start_year := 2024, week_number := 1,
    third_level_organization := "天府", business_type_category := "新车",
    coverage_type := "主全", is_transferred_vehicle := false,
    signed_premium_yuan := 100, matured_premium_yuan := 100,
    policy_count := 1, claim_case_count := 1,
    reported_claim_payment_yuan := 50, expense_amount_yuan := 10,
    marginal_contribution_amount_yuan := 40 }

def g2 : InsuranceRecord :=
  { policy_start_year := 2024, week_number := 1,
    third_level_organization := "高新", business_type_category := "旧车",
    coverage_type := "交三", is_transferred_vehicle := false,
    signed_premium_yuan := 200, matured_premium_yuan := 200,
    policy_count := 1, claim_case_count := 1,
    reported_claim_payment_yuan := 150, expense_amount_yuan := 20,
    marginal_contribution_amount_yuan := 60 }

/-- C3: for a ratio-first legacy row, `calculate_absolute_fields`
back-computes `policy_count` as matured premium over average premium
rounded to the nearest integer (half-to-even, hence always within one half
of the quotient and never fractional), `expense_amount` as signed premium
times expense ratio, `marginal_contribution` as matured premium times
`(1 - variable_cost_ratio)`, `pre_discount_commercial_premium` as matured
premium over the autonomous coefficient, and converts the three
ten-thousand-unit anchors to base units (yuan) by scaling with 10000. -/
theorem C3_ratio_first_derivation (r : ETL.StdRow)
    (h1 : r.average_premium ≠ 0) (h2 : r.commercial_autonomous_coefficient ≠ 0) :
    (ETL.calculate_absolute_fields r).signed_premium_yuan = r.signed_premium_wan * 10000
    ∧ (ETL.calculate_absolute_fields r).matured_premium_yuan = r.matured_premium_wan * 10000
    ∧ (ETL.calculate_absolute_fields r).reported_claim_payment_yuan = r.total_claim_wan * 10000
    ∧ (ETL.calculate_absolute_fields r).policy_count
        = roundHalfEven ((ETL.calculate_absolute_fields r).matured_premium_yuan / r.average_premium)
    ∧ (∀ q : ℚ, |(roundHalfEven q : ℚ) - q| ≤ 1/2)
    ∧ (ETL.calculate_absolute_fields r).expense_amount_yuan
        = (ETL.calculate_absolute_fields r).signed_premium_yuan * r.expense_ratio
    ∧ (ETL.calculate_absolute_fields r).marginal_contribution_amount_yuan
        = (ETL.calculate_absolute_fields r).matured_premium_yuan * (1 - r.variable_cost_ratio)
    ∧ (ETL.calculate_absolute_fields r).commercial_premium_before_discount_yuan
        = (ETL.calculate_absolute_fields r).matured_premium_yuan
            / r.commercial_autonomous_coefficient := by
  refine ⟨rfl, rfl, rfl, ?_, fun q => roundHalfEven_nearest q, rfl, rfl, ?_⟩
  · simp only [ETL.calculate_absolute_fields, if_neg h1]
  · simp only [ETL.calculate_absolute_fields, if_neg h2]

/-- Concrete ratio-first legacy row for the C3 witness. -/
def c3row : ETL.StdRow :=
  { signed_premium_wan := 2, matured_premium_wan := 1, average_premium := 200,
    claim_case_count := 3, total_claim_wan := 1, expense_ratio := 1,
    variable_cost_ratio := 1, commercial_autonomous_coefficient := 2 }

theorem C3_witness :
    c3row.average_premium ≠ 0 ∧ c3row.commercial_autonomous_coefficient ≠ 0
    ∧ ((ETL.calculate_absolute_fields c3row).signed_premium_yuan
          = c3row.signed_premium_wan * 10000
        ∧ (ETL.calculate_absolute_fields c3row).matured_premium_yuan
          = c3row.matured_premium_wan * 10000
        ∧ (ETL.calculate_absolute_fields c3row).reported_claim_payment_yuan
          = c3row.total_claim_wan * 10000
        ∧ (ETL.calculate_absolute_fields c3row).policy_count
          = roundHalfEven ((ETL.calculate_absolute_fields c3row).matured_premium_yuan
              / c3row.average_premium)
        ∧ (∀ q : ℚ, |(roundHalfEven q : ℚ) - q| ≤ 1/2)
        ∧ (ETL.calculate_absolute_fields c3row).expense_amount_yuan
          = (ETL.calculate_absolute_fields c3row).signed_premium_yuan * c3row.expense_ratio
        ∧ (ETL.calculate_absolute_fields c3row).marginal_contribution_amount_yuan
          = (ETL.calculate_absolute_fields c3row).matured_premium_yuan
              * (1 - c3row.variable_cost_ratio)
        ∧ (ETL.calculate_absolute_fields c3row).commercial_premium_before_discount_yuan
          = (ETL.calculate_absolute_fields c3row).matured_premium_yuan
              / c3row.commercial_autonomous_coefficient) :=
  ⟨by norm_num [c3row], by norm_num [c3row],
   C3_ratio_first_derivation c3row (by norm_num [c3row]) (by norm_num [c3row])⟩

/-- C10: every record surviving `ETLConverter.clean_data` has a nonzero
policy-start year, signed premium and week number, and an input record is
dropped (absent from the surviving table) exactly when it violates one of
the three — the deletion is silent, `clean_data` produces no rejected-rows
report, only the surviving table. -/
theorem C10_clean_data_invariant :
    (∀ (records : List InsuranceRecord) (r : InsuranceRecord),
        r ∈ ETL.clean_data records →
          r.policy_start_year ≠ 0 ∧ r.signed_premium_yuan ≠ 0 ∧ r.week_number ≠ 0)
    ∧ (∀ (records : List InsuranceRecord) (r : InsuranceRecord), r ∈ records →
        (r ∉ ETL.clean_data records ↔
          (r.policy_start_year = 0 ∨ r.signed_premium_yuan = 0 ∨ r.week_number = 0))) := by
  constructor
  · intro records r hr
    have h := (List.mem_filter.mp hr).2
    simp only [Bool.not_eq_true', Bool.or_eq_false_iff, decide_eq_false_iff_not] at h
    exact ⟨h.1.1, h.1.2, h.2⟩
  · intro records r hr
    constructor
    · intro hnot
      by_contra hcon
      push_neg at hcon
      exact hnot (List.mem_filter.mpr ⟨hr, by
        simp only [Bool.not_eq_true', Bool.or_eq_false_iff, decide_eq_false_iff_not]
        exact ⟨⟨hcon.1, hcon.2.1⟩, hcon.2.2⟩⟩)
    · intro hbad hmem
      have h := (List.mem_filter.mp hmem).2
      simp only [Bool.not_eq_true', Bool.or_eq_false_iff, decide_eq_false_iff_not] at h
      rcases hbad with h1 | h1 | h1
      · exact h.1.1 h1
      · exact h.1.2 h1
      · exact h.2 h1

/-- Record with a zero signed premium, deleted by `clean_data`. -/
def c10bad : InsuranceRecord :=
  { policy_start_year := 2024, week_number := 7,
    third_level_organization := "天府", business_type_category := "新车",
    coverage_type := "主全", is_transferred_vehicle := false,
    signed_premium_yuan := 0, matured_premium_yuan := 0,
    policy_count := 0, claim_case_count := 0,
    reported_claim_payment_yuan := 0, expense_amount_yuan := 0,
    marginal_contribution_amount_yuan := 0 }

theorem C10_witness :
    g1 ∈ ETL.clean_data [g1, c10bad]
    ∧ (g1.policy_start_year ≠ 0 ∧ g1.signed_premium_yuan ≠ 0 ∧ g1.week_number ≠ 0)
    ∧ c10bad ∈ [g1, c10bad]
    ∧ (c10bad ∉ ETL.clean_data [g1, c10bad] ↔
        (c10bad.policy_start_year = 0 ∨ c10bad.signed_premium_yuan = 0
          ∨ c10bad.week_number = 0)) :=
  ⟨by decide, C10_clean_data_invariant.1 [g1, c10bad] g1 (by decide), by decide,
   C10_clean_data_invariant.2 [g1, c10bad] c10bad (by decide)⟩

/-- C2 counterexample: the claim says every pipeline ratio yields 0 on a
zero denominator, but the row-level derivation of the commercial autonomous
coefficient (matured premium / pre-discount premium,
`scripts/etl_to_duckdb.py:122-127`) substitutes `1.0`, not `0`, when its
denominator is zero. -/
theorem C2_counterexample :
    ETL.commercial_autonomous_coefficient_derived 5 0 = 1 ∧ (1 : ℚ) ≠ 0 := by
  constructor
  · simp [ETL.commercial_autonomous_coefficient_derived]
  · norm_num

/-- C2 (amended): the zero-denominator substitution is 0 for the row-level
expense ratio, variable-cost ratio and average premium and for the overall
KPI ratios, but the commercial autonomous coefficient substitutes 1, and
the drilldown aggregate loss ratio performs an unguarded division — a group
with zero matured premium produces a non-finite value (`none`), as does a
weekly aggregate with zero matured premium and nonzero claims (`fillna(0)`
only repairs the 0/0 case). -/
theorem C2_safe_division_behaviour :
    (∀ ea : ℚ, ETL.expense_ratio_derived ea 0 = 0)
    ∧ (∀ ea sp : ℚ, sp ≠ 0 → ETL.expense_ratio_derived ea sp = ea / sp)
    ∧ (∀ mp : ℚ, ETL.average_premium_derived mp 0 = 0)
    ∧ (∀ mp pc : ℚ, pc ≠ 0 → ETL.average_premium_derived mp pc = mp / pc)
    ∧ (∀ mc : ℚ, ETL.variable_cost_ratio_derived mc 0 = 0)
    ∧ (∀ mc mp : ℚ, mp ≠ 0 → ETL.variable_cost_ratio_derived mc mp = 1 - mc / mp)
    ∧ (∀ mp : ℚ, ETL.commercial_autonomous_coefficient_derived mp 0 = 1)
    ∧ (∀ mp cp : ℚ, cp ≠ 0 →
        ETL.commercial_autonomous_coefficient_derived mp cp = mp / cp)
    ∧ (∀ rows : List InsuranceRecord, Dashboard.maturedSum rows = 0 →
        (Dashboard.calculate_kpis rows).loss_ratio = 0
        ∧ (Dashboard.calculate_kpis rows).expense_ratio = 0
        ∧ (Dashboard.calculate_kpis rows).contribution_margin_ratio = 0)
    ∧ (∀ (rows : List InsuranceRecord) (o : String),
        Dashboard.maturedSum (Dashboard.org_rows rows o) = 0 →
          Dashboard.org_loss_ratio rows o = none)
    ∧ (∀ (rows : List InsuranceRecord) (k : ℤ × ℤ),
        Dashboard.maturedSum (Dashboard.week_group rows k) = 0 →
        Dashboard.claimSum (Dashboard.week_group rows k) ≠ 0 →
          Dashboard.weekly_loss_ratio rows k = none) := by
  refine ⟨?_, ?_, ?_, ?_, ?_, ?_, ?_, ?_, ?_, ?_, ?_⟩
  · intro ea; simp [ETL.expense_ratio_derived]
  · intro ea sp h; simp [ETL.expense_ratio_derived, h]
  · intro mp; simp [ETL.average_premium_derived]
  · intro mp pc h; simp [ETL.average_premium_derived, h]
  · intro mc; simp [ETL.variable_cost_ratio_derived]
  · intro mc mp h; simp [ETL.variable_cost_ratio_derived, h]
  · intro mp; simp [ETL.commercial_autonomous_coefficient_derived]
  · intro mp cp h; simp [ETL.commercial_autonomous_coefficient_derived, h]
  · intro rows h
    have h2 : Dashboard.sumBy (fun r => r.matured_premium_yuan) rows = 0 := h
    refine ⟨?_, ?_, ?_⟩ <;> norm_num [Dashboard.calculate_kpis, h2]
  · intro rows o h
    simp [Dashboard.org_loss_ratio, h]
  · intro rows k h hn
    simp [Dashboard.weekly_loss_ratio, h, hn]

/-- Record whose organisation group has zero matured premium but positive
claims, exhibiting the unguarded drilldown division. -/
def c2zero : InsuranceRecord :=
  { policy_start_year := 2024, week_number := 1,
    third_level_organization := "新都", business_type_category := "新车",
    coverage_type := "主全", is_transferred_vehicle := false,
    signed_premium_yuan := 100, matured_premium_yuan := 0,
    policy_count := 1, claim_case_count := 1,
    reported_claim_payment_yuan := 5, expense_amount_yuan := 0,
    marginal_contribution_amount_yuan := 0 }

theorem C2_witness :
    ((4 : ℚ) ≠ 0 ∧ ETL.expense_ratio_derived 3 4 = 3 / 4)
    ∧ (Dashboard.maturedSum (Dashboard.org_rows [c2zero] "新都") = 0
        ∧ Dashboard.org_loss_ratio [c2zero] "新都" = none)
    ∧ (Dashboard.maturedSum (Dashboard.week_group [c2zero] (2024, 1)) = 0
        ∧ Dashboard.claimSum (Dashboard.week_group [c2zero] (2024, 1)) ≠ 0
        ∧ Dashboard.weekly_loss_ratio [c2zero] (2024, 1) = none) :=
  ⟨⟨by norm_num, C2_safe_division_behaviour.2.1 3 4 (by norm_num)⟩,
   ⟨by norm_num [Dashboard.maturedSum, Dashboard.sumBy, Dashboard.org_rows, c2zero],
    C2_safe_division_behaviour.2.2.2.2.2.2.2.2.2.1 [c2zero] "新都"
      (by norm_num [Dashboard.maturedSum, Dashboard.sumBy, Dashboard.org_rows, c2zero])⟩,
   ⟨by norm_num [Dashboard.maturedSum, Dashboard.sumBy, Dashboard.week_group, c2zero],
    by norm_num [Dashboard.claimSum, Dashboard.sumBy, Dashboard.week_group, c2zero],
    C2_safe_division_behaviour.2.2.2.2.2.2.2.2.2.2 [c2zero] (2024, 1)
      (by norm_num [Dashboard.maturedSum, Dashboard.sumBy, Dashboard.week_group, c2zero])
      (by norm_num [Dashboard.claimSum, Dashboard.sumBy, Dashboard.week_group, c2zero])⟩⟩

/-- Record with signed premium 1000, matured premium 500, expense 100: the
two expense-ratio conventions disagree on it. -/
def c6row : InsuranceRecord :=
  { policy_start_year := 2024, week_number := 1,
    third_level_organization := "天府", business_type_category := "新车",
    coverage_type := "主全", is_transferred_vehicle := false,
    signed_premium_yuan := 1000, matured_premium_yuan := 500,
    policy_count := 1, claim_case_count := 0,
    reported_claim_payment_yuan := 0, expense_amount_yuan := 100,
    marginal_contribution_amount_yuan := 0 }

/-- C6 counterexample: for the same expense amount (100) and premium inputs
(signed 1000, matured 500), the ETL row-level deriver returns an expense
ratio of 10% (denominator: signed premium,
`scripts/etl_to_duckdb.py:100-106`) while the dashboard KPI computation
returns 20% (denominator: matured premium,
`scripts/generate_dashboard.py:151`) — the two components do not use one
and the same denominator convention. -/
theorem C6_counterexample :
    ETL.expense_ratio_derived c6row.expense_amount_yuan c6row.signed_premium_yuan * 100 = 10
    ∧ (Dashboard.calculate_kpis [c6row]).expense_ratio = 20
    ∧ (10 : ℚ) ≠ 20 := by
  refine ⟨?_, ?_, by norm_num⟩
  · norm_num [ETL.expense_ratio_derived, c6row]
  · norm_num [Dashboard.calculate_kpis, Dashboard.sumBy, c6row]

/-- C6 (amended): the ETL row-level deriver divides the expense amount by
the signed premium while the dashboard KPI divides it by the matured
premium; the two conventions coincide exactly on rows whose signed premium
equals their (positive) matured premium. -/
theorem C6_expense_ratio_conventions (r : InsuranceRecord)
    (h : r.signed_premium_yuan = r.matured_premium_yuan)
    (h2 : 0 < r.matured_premium_yuan) :
    ETL.expense_ratio_derived r.expense_amount_yuan r.signed_premium_yuan * 100
      = (Dashboard.calculate_kpis [r]).expense_ratio := by
  have hne : r.matured_premium_yuan ≠ 0 := ne_of_gt h2
  have hpos : r.matured_premium_yuan / 10000 > 0 := by positivity
  simp only [Dashboard.calculate_kpis, Dashboard.sumBy, List.map_cons, List.map_nil,
    List.sum_cons, List.sum_nil, add_zero]
  rw [if_pos (by simpa using hpos)]
  simp only [ETL.expense_ratio_derived, h, if_neg hne]
  field_simp

/-- Record with equal signed and matured premium for the C6 witness. -/
def c6same : InsuranceRecord :=
  { policy_start_year := 2024, week_number := 1,
    third_level_organization := "天府", business_type_category := "新车",
    coverage_type := "主全", is_transferred_vehicle := false,
    signed_premium_yuan := 1000, matured_premium_yuan := 1000,
    policy_count := 1, claim_case_count := 0,
    reported_claim_payment_yuan := 0, expense_amount_yuan := 100,
    marginal_contribution_amount_yuan := 0 }

theorem C6_witness :
    c6same.signed_premium_yuan = c6same.matured_premium_yuan
    ∧ 0 < c6same.matured_premium_yuan
    ∧ ETL.expense_ratio_derived c6same.expense_amount_yuan c6same.signed_premium_yuan * 100
        = (Dashboard.calculate_kpis [c6same]).expense_ratio :=
  ⟨by norm_num [c6same], by norm_num [c6same],
   C6_expense_ratio_conventions c6same (by norm_num [c6same]) (by norm_num [c6same])⟩

/-- Ratio-first row used to exhibit the planned-premium default. -/
def c8std : ETL.StdRow :=
  { signed_premium_wan := 2, matured_premium_wan := 5, average_premium := 100,
    claim_case_count := 0, total_claim_wan := 0, expense_ratio := 0,
    variable_cost_ratio := 0, commercial_autonomous_coefficient := 1 }

/-- C8 counterexample: the claim says the missing planned-premium field is
defaulted to an empty/zero value with a warning and never fabricated.  In
the ETL (`scripts/etl_to_duckdb.py:222`) `premium_plan_yuan` is instead
defaulted to the row's matured premium — here 50000, a fabricated non-zero
value, with no warning; and the merge script's header check
(`merge_actual_data_to_csv.py:554-562`) lists `premium_plan_yuan` among
the 26 required fields, so a dataset lacking the column does not resolve
at all there. -/
theorem C8_counterexample :
    (ETL.calculate_absolute_fields c8std).premium_plan_yuan = 50000
    ∧ (50000 : ℚ) ≠ 0
    ∧ Merge.header_missing
        (Merge.REQUIRED_FIELDS_26.filter (fun f => !(f == "premium_plan_yuan")))
        = ["premium_plan_yuan"] := by
  refine ⟨?_, by norm_num, by decide⟩
  norm_num [ETL.calculate_absolute_fields, c8std]

/-- C8 (amended): the ETL resolves a dataset without a planned-premium
column (the field is not in `required_for_calc`) but defaults
`premium_plan_yuan` to the row's matured premium — a fabricated value —
with no warning; the merge row-cleaner keeps a blank planned-premium cell
as empty (null) with no warning and no error; and the merge header check
treats the planned-premium column itself as mandatory, aborting the batch
when it is absent. -/
theorem C8_premium_plan_behaviour :
    (∀ r : ETL.StdRow, (ETL.calculate_absolute_fields r).premium_plan_yuan
        = r.matured_premium_wan * 10000)
    ∧ ("premium_plan_yuan" ∉ ETL.required_for_calc)
    ∧ Merge.parse_number Merge.Cell.blank "premium_plan_yuan" true
        = (Merge.Cell.blank, 0, none)
    ∧ (∀ row : Merge.RawRow, row.premium_plan_yuan = Merge.Cell.blank →
        Merge.errs_plan row = [] ∧ (Merge.parsed_plan row).1 = Merge.Cell.blank)
    ∧ ("premium_plan_yuan" ∈ Merge.REQUIRED_FIELDS_26) := by
  refine ⟨fun r => rfl, by decide, rfl, ?_, by decide⟩
  intro row h
  constructor
  · simp [Merge.errs_plan, Merge.parsed_plan, Merge.parse_number, h]
  · simp [Merge.parsed_plan, Merge.parse_number, h]

/-- Raw merge row whose planned-premium cell is blank (all other fields
valid). -/
def c8raw : Merge.RawRow :=
  { snapshot_date := .date 2024 6 30,
    policy_start_year := .num 2024, week_number := .num 26,
    chengdu_branch := "成都", third_level_organization := "天府",
    customer_category_3 := "个人客户", business_type_category := "新车",
    insurance_type := "商业险", coverage_type := "主全", renewal_status := "新保",
    is_new_energy_vehicle := "False", is_transferred_vehicle := "False",
    terminal_source := "车商", signed_premium_yuan := .num 1000,
    matured_premium_yuan := .num 500, policy_count := .num 1,
    claim_case_count := .num 0, reported_claim_payment_yuan := .num 0,
    expense_amount_yuan := .num 10,
    commercial_premium_before_discount_yuan := .num 1200,
    premium_plan_yuan := .blank, marginal_contribution_amount_yuan := .num 50,
    vehicle_insurance_grade := "A", highway_risk_grade := "",
    large_truck_score := "", small_truck_score := "",
    second_level_organization := "四川" }

theorem C8_witness :
    c8raw.premium_plan_yuan = Merge.Cell.blank
    ∧ (Merge.errs_plan c8raw = [] ∧ (Merge.parsed_plan c8raw).1 = Merge.Cell.blank) :=
  ⟨rfl, C8_premium_plan_behaviour.2.2.2.1 c8raw rfl⟩

/-- Both branches of `_clean_row` return the accumulated error list. -/
theorem clean_row_errors (today : ℕ × ℕ × ℕ) (row : Merge.RawRow) (i : Bool) :
    (Merge.clean_row today row i).2.1 = Merge.errors_of today row := by
  by_cases h : (Merge.errors_of today row).isEmpty <;> simp [Merge.clean_row, h]

/-- Raw merge row violating only the matured ≤ signed soft invariant
(matured 200 > signed 100; every other field valid). -/
def c4raw : Merge.RawRow :=
  { snapshot_date := .date 2024 6 30,
    policy_start_year := .num 2024, week_number := .num 26,
    chengdu_branch := "成都", third_level_organization := "天府",
    customer_category_3 := "个人客户", business_type_category := "新车",
    insurance_type := "商业险", coverage_type := "主全", renewal_status := "新保",
    is_new_energy_vehicle := "False", is_transferred_vehicle := "False",
    terminal_source := "车商", signed_premium_yuan := .num 100,
    matured_premium_yuan := .num 200, policy_count := .num 1,
    claim_case_count := .num 0, reported_claim_payment_yuan := .num 0,
    expense_amount_yuan := .num 0,
    commercial_premium_before_discount_yuan := .num 120,
    premium_plan_yuan := .blank, marginal_contribution_amount_yuan := .num 50,
    vehicle_insurance_grade := "A", highway_risk_grade := "",
    large_truck_score := "", small_truck_score := "",
    second_level_organization := "四川" }

/-- C4 counterexample: on a row whose only violation is matured premium
(200) exceeding signed premium (100), `_clean_row` returns no cleaned row
(`none`) — the row is rejected and routed to the invalid-rows report — with
the consistency message recorded in the fatal `errors` list (and an empty
warning list), contradicting the claim that such a row is kept and only a
non-fatal warning is emitted. -/
theorem C4_counterexample :
    Merge.clean_row (2025, 1, 1) c4raw true
      = (none, ["matured_premium_yuan: 满期保费不能超过签单保费"], []) := by
  decide

/-- C4 (amended): whenever the parsed matured premium exceeds the parsed
signed premium, `_clean_row` records
"matured_premium_yuan: 满期保费不能超过签单保费" as a fatal error and
returns no cleaned row: the row is excluded from the merged output (and
written to the invalid-rows CSV), rather than being kept with a warning. -/
theorem C4_matured_exceeding_signed_rejects (today : ℕ × ℕ × ℕ) (row : Merge.RawRow)
    (i : Bool) (h : (Merge.parsed_matured row).2.1 > (Merge.parsed_signed row).2.1) :
    "matured_premium_yuan: 满期保费不能超过签单保费" ∈ (Merge.clean_row today row i).2.1
    ∧ (Merge.clean_row today row i).1 = none := by
  have hmem : "matured_premium_yuan: 满期保费不能超过签单保费" ∈ Merge.errs_matured row := by
    simp [Merge.errs_matured, h]
  have hmem2 : "matured_premium_yuan: 满期保费不能超过签单保费"
      ∈ Merge.errors_of today row := by
    unfold Merge.errors_of
    simp only [List.mem_append]
    tauto
  constructor
  · rw [clean_row_errors]; exact hmem2
  · have hne : Merge.errors_of today row ≠ [] := List.ne_nil_of_mem hmem2
    have hie : (Merge.errors_of today row).isEmpty = false := by
      simpa [List.isEmpty_iff] using hne
    simp [Merge.clean_row, hie]

theorem C4_witness :
    (Merge.parsed_matured c4raw).2.1 > (Merge.parsed_signed c4raw).2.1
    ∧ ("matured_premium_yuan: 满期保费不能超过签单保费"
          ∈ (Merge.clean_row (2025, 1, 1) c4raw true).2.1
        ∧ (Merge.clean_row (2025, 1, 1) c4raw true).1 = none) :=
  ⟨by decide, C4_matured_exceeding_signed_rejects (2025, 1, 1) c4raw true (by decide)⟩

/-- The canonical field names of the alias table are pairwise distinct. -/
theorem alias_keys_nodup : (ETL.field_alias_mapping.map Prod.fst).Nodup := by decide

/-- Every mandatory field appears in the alias table with its alias list. -/
theorem required_in_mapping :
    ∀ f ∈ ETL.required_for_calc, (f, ETL.aliasesOf f) ∈ ETL.field_alias_mapping := by
  decide

/-- Looking up a key with distinct keys finds exactly its entry. -/
theorem assoc_find?_eq :
    ∀ (l : List (String × List String)), (l.map Prod.fst).Nodup →
      ∀ {f : String} {as : List String}, (f, as) ∈ l →
        l.find? (fun p => p.1 == f) = some (f, as) := by
  intro l
  induction l with
  | nil => intro _ f as h; simp at h
  | cons p l ih =>
    intro hnd f as h
    simp only [List.map_cons, List.nodup_cons] at hnd
    rcases List.mem_cons.mp h with rfl | hmem
    · rw [List.find?_cons_of_pos _ (by simp)]
    · by_cases hpf : p.1 = f
      · exfalso
        have : f ∈ l.map Prod.fst := List.mem_map.mpr ⟨(f, as), hmem, rfl⟩
        exact hnd.1 (hpf ▸ this)
      · rw [List.find?_cons_of_neg _ (by simp [hpf])]
        exact ih hnd.2 hmem

theorem aliasesOf_eq {f : String} {as : List String}
    (h : (f, as) ∈ ETL.field_alias_mapping) : ETL.aliasesOf f = as := by
  unfold ETL.aliasesOf
  rw [assoc_find?_eq ETL.field_alias_mapping alias_keys_nodup h]
  rfl

theorem mem_found_iff (cols : List String) (f : String)
    (hf : f ∈ ETL.required_for_calc) :
    f ∈ ETL.found_internal_fields cols
      ↔ (ETL.findAlias (ETL.aliasesOf f) cols).isSome = true := by
  unfold ETL.found_internal_fields
  rw [List.mem_filterMap]
  constructor
  · rintro ⟨p, hp, hpe⟩
    by_cases hs : (ETL.findAlias p.2 cols).isSome
    · rw [if_pos hs] at hpe
      obtain hp1 : p.1 = f := by injection hpe
      have hkey : ETL.aliasesOf f = p.2 :=
        aliasesOf_eq (show (f, p.2) ∈ ETL.field_alias_mapping by
          rw [← hp1]; simpa using hp)
      rw [hkey]; exact hs
    · rw [if_neg hs] at hpe; simp at hpe
  · intro hs
    exact ⟨(f, ETL.aliasesOf f), required_in_mapping f hf, by rw [if_pos hs]⟩

theorem mem_missing_iff (cols : List String) (f : String)
    (hf : f ∈ ETL.required_for_calc) :
    f ∈ ETL.missing_fields cols ↔ ETL.findAlias (ETL.aliasesOf f) cols = none := by
  unfold ETL.missing_fields
  rw [List.mem_filter]
  constructor
  · rintro ⟨_, hb⟩
    have hnotmem : f ∉ ETL.found_internal_fields cols := by simpa using hb
    have hns : ¬ (ETL.findAlias (ETL.aliasesOf f) cols).isSome = true :=
      fun hs => hnotmem ((mem_found_iff cols f hf).mpr hs)
    simpa [Option.not_isSome_iff_eq_none] using hns
  · intro hn
    refine ⟨hf, ?_⟩
    have : f ∉ ETL.found_internal_fields cols := fun hm => by
      have hs := (mem_found_iff cols f hf).mp hm
      rw [hn] at hs
      simp at hs
    simpa using this

/-- C5: alias resolution over an arbitrary input column set.  If any
mandatory canonical field has no matching alias, the batch fails and the
reported error list contains exactly the (field, full alias list) pairs of
every missing mandatory field — not just the first; if every mandatory
field resolves, the rename map is produced, and every canonical field in it
is bound to the first alias of its priority-ordered list that occurs among
the input columns. -/
theorem C5_alias_resolution (cols : List String) :
    ((∃ f ∈ ETL.required_for_calc, ETL.findAlias (ETL.aliasesOf f) cols = none) →
        ETL.standardize_fields_resolve cols
          = .error ((ETL.missing_fields cols).map (fun f => (f, ETL.aliasesOf f)))
        ∧ ∀ f ∈ ETL.required_for_calc,
            ((f, ETL.aliasesOf f)
                ∈ (ETL.missing_fields cols).map (fun g => (g, ETL.aliasesOf g)) ↔
              ETL.findAlias (ETL.aliasesOf f) cols = none))
    ∧ ((∀ f ∈ ETL.required_for_calc, (ETL.findAlias (ETL.aliasesOf f) cols).isSome = true) →
        ETL.standardize_fields_resolve cols = .ok (ETL.rename_map cols))
    ∧ (∀ (n : String) (as : List String) (a : String),
        (n, as) ∈ ETL.field_alias_mapping → ETL.findAlias as cols = some a →
          (a, n) ∈ ETL.rename_map cols
          ∧ cols.contains a = true
          ∧ ∃ pre post, as = pre ++ a :: post ∧ ∀ x ∈ pre, cols.contains x = false) := by
  refine ⟨?_, ?_, ?_⟩
  · rintro ⟨f, hf, hn⟩
    have hfm : f ∈ ETL.missing_fields cols := (mem_missing_iff cols f hf).mpr hn
    have hne : ETL.missing_fields cols ≠ [] := List.ne_nil_of_mem hfm
    constructor
    · unfold ETL.standardize_fields_resolve
      rw [if_neg hne]
    · intro f2 hf2
      constructor
      · intro hmem
        obtain ⟨g, hg, he⟩ := List.mem_map.mp hmem
        obtain hg2 : g = f2 := congrArg Prod.fst he
        exact (mem_missing_iff cols f2 hf2).mp (hg2 ▸ hg)
      · intro hn2
        exact List.mem_map.mpr ⟨f2, (mem_missing_iff cols f2 hf2).mpr hn2, rfl⟩
  · intro hall
    have hmz : ETL.missing_fields cols = [] := by
      unfold ETL.missing_fields
      rw [List.filter_eq_nil_iff]
      intro f hf
      have : f ∈ ETL.found_internal_fields cols :=
        (mem_found_iff cols f hf).mpr (hall f hf)
      simpa using this
    unfold ETL.standardize_fields_resolve
    rw [if_pos hmz]
  · intro n as a hmap hfind
    obtain ⟨pre, post, heq, hpre, hpa⟩ := find?_first (fun x => cols.contains x) as a hfind
    refine ⟨?_, hpa, pre, post, heq, hpre⟩
    exact List.mem_filterMap.mpr ⟨(n, as), hmap, by
      show (ETL.findAlias as cols).map (fun x => (x, n)) = some (a, n)
      rw [hfind]
      rfl⟩

/-- Input column set (Chinese headers) resolving every mandatory field. -/
def c5cols : List String :=
  ["跟单保费(万)", "满期净保费(万)", "单均保费", "案件数", "总赔款(万)",
   "费用率", "变动成本率", "商业险自主系数", "三级机构"]

theorem C5_witness :
    (∀ f ∈ ETL.required_for_calc, (ETL.findAlias (ETL.aliasesOf f) c5cols).isSome = true)
    ∧ ETL.standardize_fields_resolve c5cols = .ok (ETL.rename_map c5cols)
    ∧ (∃ f ∈ ETL.required_for_calc, ETL.findAlias (ETL.aliasesOf f) ["周次"] = none)
    ∧ ETL.standardize_fields_resolve ["周次"]
        = .error ((ETL.missing_fields ["周次"]).map (fun f => (f, ETL.aliasesOf f)))
    ∧ (("满期净保费(万)", "matured_premium_wan") ∈ ETL.rename_map c5cols) :=
  ⟨by decide,
   (C5_alias_resolution c5cols).2.1 (by decide),
   by decide,
   ((C5_alias_resolution ["周次"]).1 (by decide)).1,
   ((C5_alias_resolution c5cols).2.2 "matured_premium_wan"
     (ETL.aliasesOf "matured_premium_wan") "满期净保费(万)" (by decide) (by decide)).1⟩

/-- Single-business-type record used for the tie-break analysis. -/
def c9row (b : String) (p : ℚ) : InsuranceRecord :=
  { policy_start_year := 2024, week_number := 1,
    third_level_organization := "天府", business_type_category := b,
    coverage_type := "主全", is_transferred_vehicle := false,
    signed_premium_yuan := p, matured_premium_yuan := p,
    policy_count := 1, claim_case_count := 0,
    reported_claim_payment_yuan := 0, expense_amount_yuan := 0,
    marginal_contribution_amount_yuan := p }

/-- C9 counterexample: two business types "A类" and "B类" with equal signed
premium; the top-10 view emits "B类" before "A类" — the reverse of the
grouping key's natural (lexicographic) sort order, because the descending
`sort_values` reverses a stable ascending pass over the key-sorted groups.
The claim that ties are ordered by the key's natural sort order is false. -/
theorem C9_counterexample :
    Dashboard.top10_by_signed_premium [c9row "A类" 1000000, c9row "B类" 1000000]
      = [("B类", 100), ("A类", 100)]
    ∧ [("B类", (100 : ℚ)), ("A类", 100)] ≠ [("A类", 100), ("B类", 100)] := by
  constructor
  · have hba : decide ("B类" = "A类") = false := by decide
    have hab : decide ("A类" = "B类") = false := by decide
    have haa : decide ("A类" = "A类") = true := by decide
    have hbb : decide ("B类" = "B类") = true := by decide
    simp only [Dashboard.top10_by_signed_premium, Dashboard.biz_groups, c9row,
      List.map_cons, List.map_nil]
    rw [show unique ["A类", "B类"] = ["A类", "B类"] from by decide]
    rw [show Dashboard.sortStr ["A类", "B类"] = ["A类", "B类"] from by decide]
    simp only [Dashboard.biz_rows, Dashboard.sumBy, c9row, List.filter_cons, List.filter_nil,
      hba, hab, haa, hbb, Bool.false_eq_true, if_true, if_false,
      List.map_cons, List.map_nil, List.sum_cons, List.sum_nil]
    norm_num [Dashboard.stableSortPremium, Dashboard.insertAscPremium]
  · simp

/-- C9 (amended): when two groups have equal premium, the ranked view lists
them in the reverse of the grouping key's natural sort order: pandas
`groupby` emits the groups in ascending key order, the descending
`sort_values` is implemented (`nargsort`) as a stable ascending argsort
followed by a reversal of the whole index, so equal-premium groups come out
in descending key order.  The output is still a deterministic function of
the input dataset, so two runs on the same input produce identical output. -/
theorem C9_equal_premium_reverse_order (p : ℚ) :
    Dashboard.top10_by_signed_premium [c9row "A类" p, c9row "B类" p]
      = [("B类", p / 10000), ("A类", p / 10000)] := by
  have hba : decide ("B类" = "A类") = false := by decide
  have hab : decide ("A类" = "B类") = false := by decide
  have haa : decide ("A类" = "A类") = true := by decide
  have hbb : decide ("B类" = "B类") = true := by decide
  simp only [Dashboard.top10_by_signed_premium, Dashboard.biz_groups, c9row,
    List.map_cons, List.map_nil]
  rw [show unique ["A类", "B类"] = ["A类", "B类"] from by decide]
  rw [show Dashboard.sortStr ["A类", "B类"] = ["A类", "B类"] from by decide]
  simp only [Dashboard.biz_rows, Dashboard.sumBy, c9row, List.filter_cons, List.filter_nil,
    hba, hab, haa, hbb, Bool.false_eq_true, if_true, if_false,
    List.map_cons, List.map_nil, List.sum_cons, List.sum_nil]
  simp [Dashboard.stableSortPremium, Dashboard.insertAscPremium, add_zero]

/-- C1: every ratio produced after aggregation is the ratio of the summed
numerator and denominator of its group — the overall KPIs exactly, the
per-group and per-week aggregates up to the 2-decimal display rounding the
source applies — never the arithmetic mean of row-level ratios.  On the
spec's synthetic dataset (G1: matured 100 / claims 50, G2: matured 200 /
claims 150) the combined loss ratio is 200/3 ≈ 66.67%, and the rounded
weekly aggregate is exactly 66.67%, not the 62.5% mean of 50% and 75%.  -/
theorem C1_ratio_of_sums :
    (∀ rows : List InsuranceRecord, (Dashboard.calculate_kpis rows).matured_premium > 0 →
        (Dashboard.calculate_kpis rows).loss_ratio
            = Dashboard.claimSum rows / Dashboard.maturedSum rows * 100
        ∧ (Dashboard.calculate_kpis rows).expense_ratio
            = Dashboard.expenseSum rows / Dashboard.maturedSum rows * 100
        ∧ (Dashboard.calculate_kpis rows).contribution_margin_ratio
            = Dashboard.sumBy (fun r => r.marginal_contribution_amount_yuan) rows
                / Dashboard.maturedSum rows * 100)
    ∧ (∀ (rows : List InsuranceRecord) (b : String),
        Dashboard.maturedSum (Dashboard.biz_rows rows b) ≠ 0 →
          Dashboard.biz_contribution_margin_ratio rows b
            = some (round2 (Dashboard.sumBy (fun r => r.marginal_contribution_amount_yuan)
                  (Dashboard.biz_rows rows b)
                / Dashboard.maturedSum (Dashboard.biz_rows rows b) * 100)))
    ∧ (∀ (rows : List InsuranceRecord) (k : ℤ × ℤ),
        Dashboard.maturedSum (Dashboard.week_group rows k) ≠ 0 →
          Dashboard.weekly_loss_ratio rows k
            = some (round2 (Dashboard.claimSum (Dashboard.week_group rows k)
                / Dashboard.maturedSum (Dashboard.week_group rows k) * 100)))
    ∧ ((Dashboard.calculate_kpis [g1, g2]).loss_ratio = 200 / 3
        ∧ Dashboard.weekly_loss_ratio [g1, g2] (2024, 1) = some (6667 / 100)
        ∧ (200 / 3 : ℚ) ≠ (50 + 75) / 2
        ∧ (6667 / 100 : ℚ) ≠ (50 + 75) / 2) := by
  refine ⟨?_, ?_, ?_, ?_, ?_, by norm_num, by norm_num⟩
  · intro rows h
    have h0 : Dashboard.sumBy (fun r => r.matured_premium_yuan) rows / 10000 > 0 := h
    have hm : Dashboard.maturedSum rows ≠ 0 := by
      have hp : (0 : ℚ) < Dashboard.sumBy (fun r => r.matured_premium_yuan) rows := by
        linarith
      exact ne_of_gt hp
    have hm2 : Dashboard.sumBy (fun r => r.matured_premium_yuan) rows ≠ 0 := hm
    refine ⟨?_, ?_, ?_⟩ <;>
      (simp only [Dashboard.calculate_kpis, Dashboard.claimSum, Dashboard.maturedSum,
        Dashboard.expenseSum]
       rw [if_pos h0]
       field_simp)
  · intro rows b h
    simp only [Dashboard.biz_contribution_margin_ratio]
    rw [if_neg h]
  · intro rows k h
    simp only [Dashboard.weekly_loss_ratio]
    rw [if_neg h]
  · norm_num [Dashboard.calculate_kpis, Dashboard.sumBy, g1, g2]
  · have hfl : ⌊(20000 / 3 : ℚ)⌋ = 6666 := by
      rw [Int.floor_eq_iff]
      constructor <;> norm_num
    have hre : roundHalfEven (20000 / 3 : ℚ) = 6667 := by
      unfold roundHalfEven
      rw [hfl]
      norm_num
    have hwg : Dashboard.week_group [g1, g2] (2024, 1) = [g1, g2] := by decide
    have hms : Dashboard.maturedSum [g1, g2] = 300 := by
      norm_num [Dashboard.maturedSum, Dashboard.sumBy, g1, g2]
    have hcs : Dashboard.claimSum [g1, g2] = 200 := by
      norm_num [Dashboard.claimSum, Dashboard.sumBy, g1, g2]
    simp only [Dashboard.weekly_loss_ratio, hwg, hms, hcs]
    rw [if_neg (by norm_num)]
    rw [show round2 ((200 : ℚ) / 300 * 100) = 6667 / 100 by
      unfold round2
      rw [show ((200 : ℚ) / 300 * 100) * 100 = 20000 / 3 by norm_num, hre]
      norm_num]

theorem C1_witness :
    ((Dashboard.calculate_kpis [g1, g2]).matured_premium > 0
      ∧ (Dashboard.calculate_kpis [g1, g2]).loss_ratio
          = Dashboard.claimSum [g1, g2] / Dashboard.maturedSum [g1, g2] * 100)
    ∧ (Dashboard.maturedSum (Dashboard.week_group [g1, g2] (2024, 1)) ≠ 0
      ∧ Dashboard.weekly_loss_ratio [g1, g2] (2024, 1)
          = some (round2 (Dashboard.claimSum (Dashboard.week_group [g1, g2] (2024, 1))
              / Dashboard.maturedSum (Dashboard.week_group [g1, g2] (2024, 1)) * 100))) :=
  ⟨⟨by norm_num [Dashboard.calculate_kpis, Dashboard.sumBy, g1, g2],
    (C1_ratio_of_sums.1 [g1, g2]
      (by norm_num [Dashboard.calculate_kpis, Dashboard.sumBy, g1, g2])).1⟩,
   ⟨by norm_num [Dashboard.maturedSum, Dashboard.sumBy, Dashboard.week_group, g1, g2],
    C1_ratio_of_sums.2.2.1 [g1, g2] (2024, 1)
      (by norm_num [Dashboard.maturedSum, Dashboard.sumBy, Dashboard.week_group, g1, g2])⟩⟩

/-- C7: at every level of the drilldown path (organisation → business type
→ coverage type → renewal status), summing an aggregated absolute field
over all children of a node (the groups of the node's filtered row subset)
exactly equals the node's own value of that field — stated for every field
the drilldown carries at that level — and composing all four levels, the
sum over all leaves equals the root (whole-week) aggregate. -/
theorem C7_drilldown_sum_conservation :
    (∀ sub : List InsuranceRecord,
        ((Dashboard.org_keys sub).map
            (fun o => Dashboard.maturedSum (Dashboard.org_rows sub o))).sum
          = Dashboard.maturedSum sub
        ∧ ((Dashboard.org_keys sub).map
            (fun o => Dashboard.claimSum (Dashboard.org_rows sub o))).sum
          = Dashboard.claimSum sub
        ∧ ((Dashboard.org_keys sub).map
            (fun o => Dashboard.expenseSum (Dashboard.org_rows sub o))).sum
          = Dashboard.expenseSum sub)
    ∧ (∀ sub : List InsuranceRecord,
        ((Dashboard.biz_keys sub).map
            (fun b => Dashboard.maturedSum (Dashboard.biz_rows sub b))).sum
          = Dashboard.maturedSum sub
        ∧ ((Dashboard.biz_keys sub).map
            (fun b => Dashboard.claimSum (Dashboard.biz_rows sub b))).sum
          = Dashboard.claimSum sub
        ∧ ((Dashboard.biz_keys sub).map
            (fun b => Dashboard.expenseSum (Dashboard.biz_rows sub b))).sum
          = Dashboard.expenseSum sub)
    ∧ (∀ sub : List InsuranceRecord,
        ((Dashboard.cov_keys sub).map
            (fun c => Dashboard.maturedSum (Dashboard.cov_rows sub c))).sum
          = Dashboard.maturedSum sub
        ∧ ((Dashboard.cov_keys sub).map
            (fun c => Dashboard.claimSum (Dashboard.cov_rows sub c))).sum
          = Dashboard.claimSum sub)
    ∧ (∀ sub : List InsuranceRecord,
        ((Dashboard.renewal_keys sub).map
            (fun t => Dashboard.maturedSum (Dashboard.renewal_rows sub t))).sum
          = Dashboard.maturedSum sub
        ∧ ((Dashboard.renewal_keys sub).map
            (fun t => Dashboard.claimSum (Dashboard.renewal_rows sub t))).sum
          = Dashboard.claimSum sub)
    ∧ (∀ (rows : List InsuranceRecord) (w : ℤ) (f : InsuranceRecord → ℚ),
        ((Dashboard.org_keys (Dashboard.drill_week_rows rows w)).map (fun o =>
          ((Dashboard.biz_keys (Dashboard.org_rows (Dashboard.drill_week_rows rows w) o)).map
            (fun b =>
              ((Dashboard.cov_keys (Dashboard.biz_rows
                  (Dashboard.org_rows (Dashboard.drill_week_rows rows w) o) b)).map (fun c =>
                ((Dashboard.renewal_keys (Dashboard.cov_rows (Dashboard.biz_rows
                    (Dashboard.org_rows (Dashboard.drill_week_rows rows w) o) b) c)).map
                  (fun t => Dashboard.sumBy f (Dashboard.renewal_rows
                    (Dashboard.cov_rows (Dashboard.biz_rows
                      (Dashboard.org_rows (Dashboard.drill_week_rows rows w) o) b) c) t))).sum)).sum)).sum)).sum
          = Dashboard.sumBy f (Dashboard.drill_week_rows rows w)) := by
  have horgM : ∀ sub : List InsuranceRecord,
      ((Dashboard.org_keys sub).map
          (fun o => Dashboard.maturedSum (Dashboard.org_rows sub o))).sum
        = Dashboard.maturedSum sub :=
    fun sub => sum_over_unique (fun r => r.third_level_organization)
      (fun r => r.matured_premium_yuan) sub
  have hbizM : ∀ sub : List InsuranceRecord,
      ((Dashboard.biz_keys sub).map
          (fun b => Dashboard.maturedSum (Dashboard.biz_rows sub b))).sum
        = Dashboard.maturedSum sub :=
    fun sub => sum_over_unique (fun r => r.business_type_category)
      (fun r => r.matured_premium_yuan) sub
  have hcovM : ∀ sub : List InsuranceRecord,
      ((Dashboard.cov_keys sub).map
          (fun c => Dashboard.maturedSum (Dashboard.cov_rows sub c))).sum
        = Dashboard.maturedSum sub :=
    fun sub => sum_over_unique (fun r => r.coverage_type)
      (fun r => r.matured_premium_yuan) sub
  have hrenM : ∀ sub : List InsuranceRecord,
      ((Dashboard.renewal_keys sub).map
          (fun t => Dashboard.maturedSum (Dashboard.renewal_rows sub t))).sum
        = Dashboard.maturedSum sub :=
    fun sub => sum_over_unique (fun r => r.is_transferred_vehicle)
      (fun r => r.matured_premium_yuan) sub
  refine ⟨?_, ?_, ?_, ?_, ?_⟩
  · intro sub
    exact ⟨horgM sub,
      sum_over_unique (fun r => r.third_level_organization)
        (fun r => r.reported_claim_payment_yuan) sub,
      sum_over_unique (fun r => r.third_level_organization)
        (fun r => r.expense_amount_yuan) sub⟩
  · intro sub
    exact ⟨hbizM sub,
      sum_over_unique (fun r => r.business_type_category)
        (fun r => r.reported_claim_payment_yuan) sub,
      sum_over_unique (fun r => r.business_type_category)
        (fun r => r.expense_amount_yuan) sub⟩
  · intro sub
    exact ⟨hcovM sub,
      sum_over_unique (fun r => r.coverage_type)
        (fun r => r.reported_claim_payment_yuan) sub⟩
  · intro sub
    exact ⟨hrenM sub,
      sum_over_unique (fun r => r.is_transferred_vehicle)
        (fun r => r.reported_claim_payment_yuan) sub⟩
  · intro rows w f
    have horgF : ∀ sub : List InsuranceRecord,
        ((Dashboard.org_keys sub).map
            (fun o => Dashboard.sumBy f (Dashboard.org_rows sub o))).sum
          = Dashboard.sumBy f sub :=
      fun sub => sum_over_unique (fun r => r.third_level_organization) f sub
    have hbizF : ∀ sub : List InsuranceRecord,
        ((Dashboard.biz_keys sub).map
            (fun b => Dashboard.sumBy f (Dashboard.biz_rows sub b))).sum
          = Dashboard.sumBy f sub :=
      fun sub => sum_over_unique (fun r => r.business_type_category) f sub
    have hcovF : ∀ sub : List InsuranceRecord,
        ((Dashboard.cov_keys sub).map
            (fun c => Dashboard.sumBy f (Dashboard.cov_rows sub c))).sum
          = Dashboard.sumBy f sub :=
      fun sub => sum_over_unique (fun r => r.coverage_type) f sub
    have hrenF : ∀ sub : List InsuranceRecord,
        ((Dashboard.renewal_keys sub).map
            (fun t => Dashboard.sumBy f (Dashboard.renewal_rows sub t))).sum
          = Dashboard.sumBy f sub :=
      fun sub => sum_over_unique (fun r => r.is_transferred_vehicle) f sub
    calc ((Dashboard.org_keys (Dashboard.drill_week_rows rows w)).map (fun o =>
            ((Dashboard.biz_keys (Dashboard.org_rows (Dashboard.drill_week_rows rows w) o)).map
              (fun b =>
                ((Dashboard.cov_keys (Dashboard.biz_rows
                    (Dashboard.org_rows (Dashboard.drill_week_rows rows w) o) b)).map (fun c =>
                  ((Dashboard.renewal_keys (Dashboard.cov_rows (Dashboard.biz_rows
                      (Dashboard.org_rows (Dashboard.drill_week_rows rows w) o) b) c)).map
                    (fun t => Dashboard.sumBy f (Dashboard.renewal_rows
                      (Dashboard.cov_rows (Dashboard.biz_rows
                        (Dashboard.org_rows (Dashboard.drill_week_rows rows w) o) b) c) t))).sum)).sum)).sum)).sum
        = ((Dashboard.org_keys (Dashboard.drill_week_rows rows w)).map (fun o =>
            ((Dashboard.biz_keys (Dashboard.org_rows (Dashboard.drill_week_rows rows w) o)).map
              (fun b =>
                ((Dashboard.cov_keys (Dashboard.biz_rows
                    (Dashboard.org_rows (Dashboard.drill_week_rows rows w) o) b)).map (fun c =>
                  Dashboard.sumBy f (Dashboard.cov_rows (Dashboard.biz_rows
                    (Dashboard.org_rows (Dashboard.drill_week_rows rows w) o) b) c))).sum)).sum)).sum := by
          apply sum_map_congr
          intro o
          apply sum_map_congr
          intro b
          apply sum_map_congr
          intro c
          exact hrenF _
      _ = ((Dashboard.org_keys (Dashboard.drill_week_rows rows w)).map (fun o =>
            ((Dashboard.biz_keys (Dashboard.org_rows (Dashboard.drill_week_rows rows w) o)).map
              (fun b => Dashboard.sumBy f (Dashboard.biz_rows
                (Dashboard.org_rows (Dashboard.drill_week_rows rows w) o) b))).sum)).sum := by
          apply sum_map_congr
          intro o
          apply sum_map_congr
          intro b
          exact hcovF _
      _ = ((Dashboard.org_keys (Dashboard.drill_week_rows rows w)).map (fun o =>
            Dashboard.sumBy f
              (Dashboard.org_rows (Dashboard.drill_week_rows rows w) o))).sum := by
          apply sum_map_congr
          intro o
          exact hbizF _
      _ = Dashboard.sumBy f (Dashboard.drill_week_rows rows w) := horgF _
